import Mathlib

/-!
Shallow embedding of `src/steel/sections.py` (structools).

Dimensions are modelled as exact rationals (`ℚ`): every constant appearing
in the claims (2.3, 13, 74.002, ...) is exactly representable, and all the
formulas are field arithmetic, so `ℚ` is a faithful carrier; the spec's
tolerances (±0.01) are far above any binary-float rounding of these inputs.
Division on `ℚ` is total with `x / 0 = 0`; the Python code performs no
zero-denominator guard of its own, so no claim depends on that edge.
-/

/-- Model of a Python value passed as a "dimension" argument.
`num` covers `int` and `float`; `bool` is separate because Python's `bool`
is a subclass of `int` (so `isinstance(True, (int, float))` is `True`);
`str` stands for any non-numeric value. -/
inductive PyVal where
  | num (q : ℚ)
  | bool (b : Bool)
  | str (s : String)
deriving DecidableEq

/-- `isinstance(value, (int, float))` — true for numbers and for booleans. -/
def PyVal.isNumberInstance : PyVal → Bool
  | .num _ => true
  | .bool _ => true
  | .str _ => false

/-- Numeric value of a `PyVal`: `float(value)`; `True` is 1, `False` is 0.
Non-numeric values never reach this conversion in the code. -/
def PyVal.toRat : PyVal → ℚ
  | .num q => q
  | .bool b => if b then 1 else 0
  | .str _ => 0

/-- Errors raised by `sections.py`.
`invalidDimension` models the `TypeError` from `PositiveFloat.__set__`,
`outOfRange` its `ValueError`, and `unsupportedGrade` the `ValueError`
of `HSection.check_width_thickness_ratios`; each carries the message's
distinguishing content (field name resp. grade string). -/
inductive SectionError where
  | invalidDimension (field : String)
  | outOfRange (field : String)
  | unsupportedGrade (grade : String)
deriving DecidableEq

/-- `PositiveFloat.__set__`: reject non-numbers with `TypeError` naming the
field, reject values ≤ 0 with `ValueError` naming the field, otherwise
store `float(value)`. -/
def PositiveFloat.set (name : String) (value : PyVal) : Except SectionError ℚ :=
  if ¬ value.isNumberInstance then .error (.invalidDimension name)
  else if value.toRat ≤ 0 then .error (.outOfRange name)
  else .ok value.toRat

/-- A fully constructed `LippedChannelSection`: all six dimensions already
validated (the constructor `LippedChannelSection.make` below is the only
way the Python code produces one). -/
structure LippedChannelSection where
  h : ℚ
  b : ℚ
  d : ℚ
  t_w : ℚ
  t_f : ℚ
  t_l : ℚ
deriving DecidableEq

/-- `LippedChannelSection.__init__`: each assignment goes through the
`PositiveFloat` descriptor, in source order h, b, d, t_w, t_f, t_l; the
first failing assignment raises and no object is observable. -/
def LippedChannelSection.make (h b d t_w t_f t_l : PyVal) :
    Except SectionError LippedChannelSection := do
  let h ← PositiveFloat.set "ウェブ高さ" h
  let b ← PositiveFloat.set "フランジ幅" b
  let d ← PositiveFloat.set "リップ長さ" d
  let t_w ← PositiveFloat.set "ウェブ厚" t_w
  let t_f ← PositiveFloat.set "フランジ厚" t_f
  let t_l ← PositiveFloat.set "リップ厚" t_l
  return ⟨h, b, d, t_w, t_f, t_l⟩

/-- `LippedChannelSection.area`: part areas minus the plate-overlap areas. -/
def LippedChannelSection.area (s : LippedChannelSection) : ℚ :=
  let web_area := s.h * s.t_w
  let flange_area := 2 * s.b * s.t_f
  let lip_area := 2 * s.d * s.t_l
  let web_flange_overlap := 2 * s.t_w * s.t_f
  let flange_lip_overlap := 2 * s.t_f * s.t_l
  web_area + flange_area + lip_area - web_flange_overlap - flange_lip_overlap

/-- `LippedChannelSection.centroid`. -/
def LippedChannelSection.centroid (s : LippedChannelSection) : ℚ × ℚ :=
  ((2 * s.b * s.t_f * (s.b / 2) +
    2 * s.d * s.t_l * (s.b + s.d / 2)) / s.area,
   s.h / 2)

/-- `LippedChannelSection.moment_of_inertia_strong_web`. -/
def LippedChannelSection.moment_of_inertia_strong_web (s : LippedChannelSection) : ℚ :=
  s.t_w * s.h ^ 3 / 12

/-- `LippedChannelSection.moment_of_inertia_strong_flange`. -/
def LippedChannelSection.moment_of_inertia_strong_flange (s : LippedChannelSection) : ℚ :=
  2 * (s.t_f * s.b ^ 3 / 12 + s.b * s.t_f * (s.b / 2) ^ 2)

/-- `LippedChannelSection.moment_of_inertia_strong_lip`. -/
def LippedChannelSection.moment_of_inertia_strong_lip (s : LippedChannelSection) : ℚ :=
  2 * (s.t_l * s.d ^ 3 / 12 + s.d * s.t_l * (s.b + s.d / 2) ^ 2)

/-- `LippedChannelSection.moment_of_inertia_strong`: sum of the three parts. -/
def LippedChannelSection.moment_of_inertia_strong (s : LippedChannelSection) : ℚ :=
  s.moment_of_inertia_strong_web +
  s.moment_of_inertia_strong_flange +
  s.moment_of_inertia_strong_lip

/-- `LippedChannelSection.moment_of_inertia_weak_web`. -/
def LippedChannelSection.moment_of_inertia_weak_web (s : LippedChannelSection) : ℚ :=
  s.h * s.t_w ^ 3 / 12

/-- `LippedChannelSection.moment_of_inertia_weak_flange`. -/
def LippedChannelSection.moment_of_inertia_weak_flange (s : LippedChannelSection) : ℚ :=
  2 * s.b * s.t_f * (s.h / 2) ^ 2

/-- `LippedChannelSection.moment_of_inertia_weak_lip`. -/
def LippedChannelSection.moment_of_inertia_weak_lip (s : LippedChannelSection) : ℚ :=
  2 * s.d * s.t_l * (s.h / 2) ^ 2

/-- `LippedChannelSection.moment_of_inertia_weak`: sum of the three parts. -/
def LippedChannelSection.moment_of_inertia_weak (s : LippedChannelSection) : ℚ :=
  s.moment_of_inertia_weak_web +
  s.moment_of_inertia_weak_flange +
  s.moment_of_inertia_weak_lip

/-- `LippedChannelSection.section_modulus_strong`. -/
def LippedChannelSection.section_modulus_strong (s : LippedChannelSection) : ℚ :=
  s.moment_of_inertia_strong / (s.h / 2)

/-- `LippedChannelSection.section_modulus_weak`: divides by `centroid.x`
with no degeneracy guard. -/
def LippedChannelSection.section_modulus_weak (s : LippedChannelSection) : ℚ :=
  s.moment_of_inertia_weak / s.centroid.1

/-- `LippedChannelSection.torsion_constant`. -/
def LippedChannelSection.torsion_constant (s : LippedChannelSection) : ℚ :=
  (s.h * s.t_w ^ 3 + 2 * s.b * s.t_f ^ 3 + 2 * s.d * s.t_l ^ 3) / 3

/-- `LippedChannelSection.warping_constant`. -/
def LippedChannelSection.warping_constant (s : LippedChannelSection) : ℚ :=
  (s.moment_of_inertia_weak * s.h ^ 2 / 4) * (1 - (3 * s.b) / (2 * s.h))

/-- `LippedChannelSection.shear_center`. -/
def LippedChannelSection.shear_center (s : LippedChannelSection) : ℚ × ℚ :=
  let k := 1 + (s.d / s.b) ^ 2 * (s.t_l / s.t_f)
  (s.b * (s.h ^ 2 * s.t_w + 4 * s.b * s.t_f * s.h * k) /
     (4 * s.moment_of_inertia_weak),
   s.h / 2)

/-- `SteelSectionProperties`: the aggregated record (base `SectionProperties`
fields plus the steel-specific ones), flattened. -/
structure SteelSectionProperties where
  area : ℚ
  moment_of_inertia_x : ℚ
  moment_of_inertia_y : ℚ
  torsional_constant : ℚ
  plastic_moment_x : ℚ
  plastic_moment_y : ℚ
  warping_constant : ℚ
  shear_center_x : ℚ
  shear_center_y : ℚ
deriving DecidableEq

/-- `LippedChannelSection.calculate_properties`. -/
def LippedChannelSection.calculate_properties (s : LippedChannelSection) :
    SteelSectionProperties where
  area := s.area
  moment_of_inertia_x := s.moment_of_inertia_strong
  moment_of_inertia_y := s.moment_of_inertia_weak
  torsional_constant := s.torsion_constant
  plastic_moment_x := s.section_modulus_strong * 1.5
  plastic_moment_y := s.section_modulus_weak * 1.5
  warping_constant := s.warping_constant
  shear_center_x := s.shear_center.1
  shear_center_y := s.shear_center.2

/-- `LippedChannelSection.web_width_thickness_ratio`. -/
def LippedChannelSection.web_width_thickness_ratio (s : LippedChannelSection) : ℚ :=
  s.h / s.t_w

/-- `LippedChannelSection.flange_width_thickness_ratio`. -/
def LippedChannelSection.flange_width_thickness_ratio (s : LippedChannelSection) : ℚ :=
  s.b / s.t_f

/-- `LippedChannelSection.lip_width_thickness_ratio`. -/
def LippedChannelSection.lip_width_thickness_ratio (s : LippedChannelSection) : ℚ :=
  s.d / s.t_l

/-- A fully constructed `HSection`. -/
structure HSection where
  h : ℚ
  b : ℚ
  t_w : ℚ
  t_f : ℚ
deriving DecidableEq

/-- `HSection.__init__`: assignments in source order h, b, t_w, t_f, each
through the `PositiveFloat` descriptor. -/
def HSection.make (h b t_w t_f : PyVal) : Except SectionError HSection := do
  let h ← PositiveFloat.set "断面せい" h
  let b ← PositiveFloat.set "フランジ幅" b
  let t_w ← PositiveFloat.set "ウェブ厚" t_w
  let t_f ← PositiveFloat.set "フランジ厚" t_f
  return ⟨h, b, t_w, t_f⟩

/-- `HSection.web_area`: no `h > 2·t_f` guard in the code. -/
def HSection.web_area (s : HSection) : ℚ :=
  (s.h - 2 * s.t_f) * s.t_w

/-- `HSection.flange_area`. -/
def HSection.flange_area (s : HSection) : ℚ :=
  2 * s.b * s.t_f

/-- `HSection.area`. -/
def HSection.area (s : HSection) : ℚ :=
  s.web_area + s.flange_area

/-- `HSection.centroid`. -/
def HSection.centroid (s : HSection) : ℚ × ℚ :=
  (s.b / 2, s.h / 2)

/-- `HSection.moment_of_inertia_strong`. -/
def HSection.moment_of_inertia_strong (s : HSection) : ℚ :=
  let web_i := s.t_w * (s.h - 2 * s.t_f) ^ 3 / 12
  let d := (s.h - s.t_f) / 2
  let flange_i := 2 * (s.b * s.t_f ^ 3 / 12 + s.b * s.t_f * d ^ 2)
  web_i + flange_i

/-- `HSection.moment_of_inertia_weak`. -/
def HSection.moment_of_inertia_weak (s : HSection) : ℚ :=
  let web_i := (s.h - 2 * s.t_f) * s.t_w ^ 3 / 12
  let flange_i := 2 * (s.t_f * s.b ^ 3 / 12)
  web_i + flange_i

/-- `HSection.section_modulus_strong`. -/
def HSection.section_modulus_strong (s : HSection) : ℚ :=
  s.moment_of_inertia_strong / (s.h / 2)

/-- `HSection.section_modulus_weak`. -/
def HSection.section_modulus_weak (s : HSection) : ℚ :=
  s.moment_of_inertia_weak / (s.b / 2)

/-- `HSection.torsion_constant`. -/
def HSection.torsion_constant (s : HSection) : ℚ :=
  ((s.h - 2 * s.t_f) * s.t_w ^ 3 + 2 * s.b * s.t_f ^ 3) / 3

/-- `HSection.warping_constant`. -/
def HSection.warping_constant (s : HSection) : ℚ :=
  let h_f := s.h - s.t_f
  s.t_f * s.b ^ 3 * h_f ^ 2 / 24

/-- `HSection.calculate_properties`: shear center written directly as
`(b/2, h/2)` in the source. -/
def HSection.calculate_properties (s : HSection) : SteelSectionProperties where
  area := s.area
  moment_of_inertia_x := s.moment_of_inertia_strong
  moment_of_inertia_y := s.moment_of_inertia_weak
  torsional_constant := s.torsion_constant
  plastic_moment_x := s.section_modulus_strong * 1.5
  plastic_moment_y := s.section_modulus_weak * 1.5
  warping_constant := s.warping_constant
  shear_center_x := s.b / 2
  shear_center_y := s.h / 2

/-- `HSection.web_width_thickness_ratio`. -/
def HSection.web_width_thickness_ratio (s : HSection) : ℚ :=
  (s.h - 2 * s.t_f) / s.t_w

/-- `HSection.flange_width_thickness_ratio`. -/
def HSection.flange_width_thickness_ratio (s : HSection) : ℚ :=
  (s.b / 2) / s.t_f

/-- The `limits` table of `HSection.check_width_thickness_ratios`:
`(web, flange)` limits per steel grade, `none` for an unknown grade. -/
def HSection.limits (grade : String) : Option (ℚ × ℚ) :=
  if grade = "SN400" then some (72, 12)
  else if grade = "SN490" then some (67, 11)
  else if grade = "SM490" then some (67, 11)
  else if grade = "SM520" then some (60, 10)
  else none

/-- Python's `round(q, 2)` applied to the exact rational value: round to the
nearest multiple of 1/100, ties to even (no claim input lies on a tie, so
the binary-float representation question never bites). -/
def pyRound2 (q : ℚ) : ℚ :=
  (if Int.fract (q * 100) = 1 / 2 then
    (if 2 ∣ ⌊q * 100⌋ then ⌊q * 100⌋ else ⌊q * 100⌋ + 1)
  else round (q * 100) : ℤ) / 100

/-- One entry (`web` or `flange`) of the width-thickness check result. -/
structure RatioEntry where
  ratio : ℚ
  limit : ℚ
  status : String
deriving DecidableEq

/-- The dict returned by `HSection.check_width_thickness_ratios`. -/
structure WidthThicknessResult where
  web : RatioEntry
  flange : RatioEntry
deriving DecidableEq

/-- `HSection.check_width_thickness_ratios`: look up the grade limits
(unknown grade raises `ValueError`), report each ratio rounded to two
decimals, the limit, and a status computed from the unrounded ratio. -/
def HSection.check_width_thickness_ratios (s : HSection) (steel_grade : String) :
    Except SectionError WidthThicknessResult :=
  match HSection.limits steel_grade with
  | none => .error (.unsupportedGrade steel_grade)
  | some (web_limit, flange_limit) =>
    .ok
      { web :=
          { ratio := pyRound2 s.web_width_thickness_ratio
            limit := web_limit
            status := if s.web_width_thickness_ratio ≤ web_limit then "OK" else "NG" }
        flange :=
          { ratio := pyRound2 s.flange_width_thickness_ratio
            limit := flange_limit
            status := if s.flange_width_thickness_ratio ≤ flange_limit then "OK" else "NG" } }

/-- The lipped channel used by the spec and the test suite:
`h=200, b=75, d=20, t_w=t_f=t_l=2.3`. -/
def lc200 : LippedChannelSection :=
  ⟨200, 75, 20, 2.3, 2.3, 2.3⟩

/-- The H-section used by the spec and the test suite:
`h=400, b=200, t_w=8, t_f=13`. -/
def hs400 : HSection :=
  ⟨400, 200, 8, 13⟩

/-- The H-section `h=74.002, b=1, t_w=1, t_f=1`: its exact web ratio 72.002
exceeds the SN400 web limit 72 by less than 0.005. -/
def hs74 : HSection := ⟨74.002, 1, 1, 1⟩

/-- The H-section `h=1, b=0.1, t_w=1, t_f=1`: every dimension is strictly
positive, yet its area is negative. -/
def hsThin : HSection := ⟨1, 0.1, 1, 1⟩

/-- C1, counterexample: the constructor accepts `h=200, b=75, d=20,
t_w=t_f=t_l=2.3`, and for that section `area` evaluates to 875.84: the code
subtracts the plate overlaps, so `area` differs from the claimed no-overlap
value `t_w·h + 2·t_f·b + 2·t_l·d = 897`, and is not within 0.01 of the
claimed 891.0 either. -/
theorem c1_counterexample :
    LippedChannelSection.make (.num 200) (.num 75) (.num 20)
        (.num 2.3) (.num 2.3) (.num 2.3) = Except.ok lc200
    ∧ lc200.area = 875.84
    ∧ lc200.t_w * lc200.h + 2 * lc200.t_f * lc200.b + 2 * lc200.t_l * lc200.d = 897
    ∧ lc200.area ≠
        lc200.t_w * lc200.h + 2 * lc200.t_f * lc200.b + 2 * lc200.t_l * lc200.d
    ∧ ¬ |lc200.area - 891| ≤ 0.01 := by
  refine ⟨?_, ?_, ?_, ?_, ?_⟩
  · norm_num [LippedChannelSection.make, PositiveFloat.set, PyVal.isNumberInstance,
      PyVal.toRat, lc200]
    rfl
  · norm_num [LippedChannelSection.area, lc200]
  · norm_num [lc200]
  · norm_num [LippedChannelSection.area, lc200]
  · norm_num [LippedChannelSection.area, lc200, abs_le]

/-- C1, amended: `LippedChannelSection.area` is the overlap-corrected
centerline formula `t_w·h + 2·t_f·b + 2·t_l·d − 2·t_w·t_f − 2·t_f·t_l`;
for `h=200, b=75, d=20, t_w=t_f=t_l=2.3` it equals 875.84 exactly. -/
theorem c1_theorem :
    (∀ s : LippedChannelSection,
      s.area = s.t_w * s.h + 2 * s.t_f * s.b + 2 * s.t_l * s.d -
        2 * s.t_w * s.t_f - 2 * s.t_f * s.t_l)
    ∧ lc200.area = 875.84 := by
  constructor
  · intro s
    show s.h * s.t_w + 2 * s.b * s.t_f + 2 * s.d * s.t_l -
        2 * s.t_w * s.t_f - 2 * s.t_f * s.t_l = _
    ring
  · norm_num [LippedChannelSection.area, lc200]

/-- C2, counterexample: the constructor accepts `h=2, b=1, t_w=1, t_f=1`
even though `h > 2·t_f` fails (`h = 2·t_f`), and `web_area` then evaluates
to the non-positive value 0 without raising any error — the code has no
`DegenerateGeometry` error at all. -/
theorem c2_counterexample :
    HSection.make (.num 2) (.num 1) (.num 1) (.num 1) = Except.ok ⟨2, 1, 1, 1⟩
    ∧ ¬ (2 : ℚ) > 2 * 1
    ∧ (⟨2, 1, 1, 1⟩ : HSection).web_area = 0 := by
  refine ⟨?_, by norm_num, ?_⟩
  · norm_num [HSection.make, PositiveFloat.set, PyVal.isNumberInstance, PyVal.toRat]
    rfl
  · norm_num [HSection.web_area]

/-- C2, amended: the code performs no degenerate-geometry check: when the
structural precondition `h > 2·t_f` fails, `HSection.web_area` simply
returns `(h − 2·t_f)·t_w ≤ 0`, and `LippedChannelSection.
section_modulus_weak` always returns `moment_of_inertia_weak / centroid.x`
with no guard on the denominator. -/
theorem c2_theorem :
    (∀ s : HSection, s.h ≤ 2 * s.t_f → 0 < s.t_w → s.web_area ≤ 0)
    ∧ (∀ s : LippedChannelSection,
        s.section_modulus_weak = s.moment_of_inertia_weak / s.centroid.1) := by
  constructor
  · intro s hle htw
    unfold HSection.web_area
    nlinarith
  · intro s
    rfl

/-- C2, witness: the amended claim instantiated at `HSection 2 1 1 1`. -/
theorem c2_witness :
    (⟨2, 1, 1, 1⟩ : HSection).h ≤ 2 * (⟨2, 1, 1, 1⟩ : HSection).t_f
    ∧ 0 < (⟨2, 1, 1, 1⟩ : HSection).t_w
    ∧ (⟨2, 1, 1, 1⟩ : HSection).web_area ≤ 0 :=
  ⟨by norm_num, by norm_num,
   c2_theorem.1 ⟨2, 1, 1, 1⟩ (by norm_num) (by norm_num)⟩

/-- C3, counterexample: all four dimensions of `hsThin` are strictly
positive, so the constructor accepts them, yet `area = -0.8`: the claimed
invariant `area > 0` fails. -/
theorem c3_counterexample :
    HSection.make (.num 1) (.num 0.1) (.num 1) (.num 1) = Except.ok hsThin
    ∧ hsThin.area = -0.8
    ∧ ¬ 0 < hsThin.area := by
  refine ⟨?_, ?_, ?_⟩
  · norm_num [HSection.make, PositiveFloat.set, PyVal.isNumberInstance, PyVal.toRat,
      hsThin]
    rfl
  · norm_num [HSection.area, HSection.web_area, HSection.flange_area, hsThin]
  · norm_num [HSection.area, HSection.web_area, HSection.flange_area, hsThin]

/-- C3, amended: `area > 0` holds for every constructed section whose
dimensions additionally satisfy `t_w ≤ b` (H-section) respectively
`t_w + t_l ≤ b` (lipped channel) — conditions every physically meaningful
thin-walled profile meets; without them the overlap/web corrections can
drive the area to 0 or below. -/
theorem c3_theorem :
    (∀ s : HSection, 0 < s.h → 0 < s.t_w → 0 < s.t_f → s.t_w ≤ s.b →
      0 < s.area)
    ∧ (∀ s : LippedChannelSection, 0 < s.h → 0 < s.d → 0 < s.t_w →
        0 < s.t_f → 0 < s.t_l → s.t_w + s.t_l ≤ s.b → 0 < s.area) := by
  constructor
  · intro s hh htw htf hb
    unfold HSection.area HSection.web_area HSection.flange_area
    nlinarith [mul_pos hh htw, mul_nonneg htf.le (sub_nonneg.mpr hb)]
  · intro s hh hd htw htf htl hb
    show 0 < s.h * s.t_w + 2 * s.b * s.t_f + 2 * s.d * s.t_l -
        2 * s.t_w * s.t_f - 2 * s.t_f * s.t_l
    nlinarith [mul_pos hh htw, mul_pos hd htl,
      mul_nonneg htf.le (by linarith : (0:ℚ) ≤ s.b - s.t_w - s.t_l)]

/-- C3, witness: the amended claim instantiated at the spec's two standard
sections `hs400` and `lc200`. -/
theorem c3_witness :
    (0 < hs400.h ∧ 0 < hs400.t_w ∧ 0 < hs400.t_f ∧ hs400.t_w ≤ hs400.b
      ∧ 0 < hs400.area)
    ∧ (0 < lc200.h ∧ 0 < lc200.d ∧ 0 < lc200.t_w ∧ 0 < lc200.t_f
      ∧ 0 < lc200.t_l ∧ lc200.t_w + lc200.t_l ≤ lc200.b ∧ 0 < lc200.area) :=
  ⟨⟨by norm_num [hs400], by norm_num [hs400], by norm_num [hs400],
    by norm_num [hs400],
    c3_theorem.1 hs400 (by norm_num [hs400]) (by norm_num [hs400])
      (by norm_num [hs400]) (by norm_num [hs400])⟩,
   ⟨by norm_num [lc200], by norm_num [lc200], by norm_num [lc200],
    by norm_num [lc200], by norm_num [lc200], by norm_num [lc200],
    c3_theorem.2 lc200 (by norm_num [lc200]) (by norm_num [lc200])
      (by norm_num [lc200]) (by norm_num [lc200]) (by norm_num [lc200])
      (by norm_num [lc200])⟩⟩

/-- Distributing `Except` bind over a conditional: shared helper for the
constructor cascade proofs. -/
theorem ite_bind {α β : Type} (c : Prop) [Decidable c] (x y : Except SectionError α)
    (f : α → Except SectionError β) :
    ((if c then x else y) >>= f) = if c then x >>= f else y >>= f := by
  split <;> rfl

/-- Binding after an error is that error: shared helper. -/
theorem error_bind {α β : Type} (e : SectionError) (f : α → Except SectionError β) :
    ((Except.error e : Except SectionError α) >>= f) = Except.error e := rfl

/-- Binding after a success applies the continuation: shared helper. -/
theorem ok_bind {α β : Type} (a : α) (f : α → Except SectionError β) :
    ((Except.ok a : Except SectionError α) >>= f) = f a := rfl

/-- C4: construction is exactly a first-failure cascade over the dimensions
in source order: a non-numeric value fails with the `TypeError`
(`invalidDimension`) naming that field, a numeric value ≤ 0 fails with the
`ValueError` (`outOfRange`) naming that field, and only when every
dimension is a positive number is a section produced — so a section that
fails validation is never observable. -/
theorem c4_theorem :
    (∀ vh vb vd vtw vtf vtl : PyVal,
      LippedChannelSection.make vh vb vd vtw vtf vtl =
        if ¬ vh.isNumberInstance then .error (.invalidDimension "ウェブ高さ")
        else if vh.toRat ≤ 0 then .error (.outOfRange "ウェブ高さ")
        else if ¬ vb.isNumberInstance then .error (.invalidDimension "フランジ幅")
        else if vb.toRat ≤ 0 then .error (.outOfRange "フランジ幅")
        else if ¬ vd.isNumberInstance then .error (.invalidDimension "リップ長さ")
        else if vd.toRat ≤ 0 then .error (.outOfRange "リップ長さ")
        else if ¬ vtw.isNumberInstance then .error (.invalidDimension "ウェブ厚")
        else if vtw.toRat ≤ 0 then .error (.outOfRange "ウェブ厚")
        else if ¬ vtf.isNumberInstance then .error (.invalidDimension "フランジ厚")
        else if vtf.toRat ≤ 0 then .error (.outOfRange "フランジ厚")
        else if ¬ vtl.isNumberInstance then .error (.invalidDimension "リップ厚")
        else if vtl.toRat ≤ 0 then .error (.outOfRange "リップ厚")
        else Except.ok ⟨vh.toRat, vb.toRat, vd.toRat, vtw.toRat, vtf.toRat, vtl.toRat⟩)
    ∧ (∀ vh vb vtw vtf : PyVal,
      HSection.make vh vb vtw vtf =
        if ¬ vh.isNumberInstance then .error (.invalidDimension "断面せい")
        else if vh.toRat ≤ 0 then .error (.outOfRange "断面せい")
        else if ¬ vb.isNumberInstance then .error (.invalidDimension "フランジ幅")
        else if vb.toRat ≤ 0 then .error (.outOfRange "フランジ幅")
        else if ¬ vtw.isNumberInstance then .error (.invalidDimension "ウェブ厚")
        else if vtw.toRat ≤ 0 then .error (.outOfRange "ウェブ厚")
        else if ¬ vtf.isNumberInstance then .error (.invalidDimension "フランジ厚")
        else if vtf.toRat ≤ 0 then .error (.outOfRange "フランジ厚")
        else Except.ok ⟨vh.toRat, vb.toRat, vtw.toRat, vtf.toRat⟩) := by
  constructor
  · intro vh vb vd vtw vtf vtl
    simp only [LippedChannelSection.make, PositiveFloat.set, ite_bind, error_bind,
      ok_bind]
    rfl
  · intro vh vb vtw vtf
    simp only [HSection.make, PositiveFloat.set, ite_bind, error_bind, ok_bind]
    rfl

/-- C5, counterexample: for `HSection(400, 200, 3, 13)` (accepted by the
constructor) the exact web ratio is 374/3 = 124.666…, but the record
returned for grade SN400 reports the rounded ratio 124.67 ≠ 374/3 — the
`ratio` entry is not `(h − 2·t_f)/t_w` as claimed. -/
theorem c5_counterexample :
    HSection.make (.num 400) (.num 200) (.num 3) (.num 13) =
      Except.ok ⟨400, 200, 3, 13⟩
    ∧ (⟨400, 200, 3, 13⟩ : HSection).web_width_thickness_ratio = 374 / 3
    ∧ (⟨400, 200, 3, 13⟩ : HSection).check_width_thickness_ratios "SN400" =
        Except.ok ⟨⟨124.67, 72, "NG"⟩, ⟨7.69, 12, "OK"⟩⟩
    ∧ (124.67 : ℚ) ≠ 374 / 3 := by
  refine ⟨?_, ?_, ?_, by norm_num⟩
  · norm_num [HSection.make, PositiveFloat.set, PyVal.isNumberInstance, PyVal.toRat]
    rfl
  · norm_num [HSection.web_width_thickness_ratio]
  · norm_num [HSection.check_width_thickness_ratios, HSection.limits,
      HSection.web_width_thickness_ratio, HSection.flange_width_thickness_ratio,
      pyRound2, Int.fract, round_eq]

/-- C5, amended: for every grade in the table the returned record carries,
for web and flange, the exact ratio (`(h − 2·t_f)/t_w` resp. `(b/2)/t_f`)
rounded to two decimals, the grade's limit, and a status that is OK
precisely when the unrounded ratio is at most the limit; every grade
outside the table fails with the `ValueError` (`unsupportedGrade`). -/
theorem c5_theorem :
    (∀ (s : HSection) (g : String) (wl fl : ℚ),
      HSection.limits g = some (wl, fl) →
      s.check_width_thickness_ratios g =
        Except.ok ⟨⟨pyRound2 ((s.h - 2 * s.t_f) / s.t_w), wl,
              if (s.h - 2 * s.t_f) / s.t_w ≤ wl then "OK" else "NG"⟩,
             ⟨pyRound2 ((s.b / 2) / s.t_f), fl,
              if (s.b / 2) / s.t_f ≤ fl then "OK" else "NG"⟩⟩)
    ∧ (∀ (s : HSection) (g : String),
        HSection.limits g = none →
        s.check_width_thickness_ratios g = Except.error (.unsupportedGrade g))
    ∧ HSection.limits "SN400" = some (72, 12)
    ∧ HSection.limits "SN490" = some (67, 11)
    ∧ HSection.limits "SM490" = some (67, 11)
    ∧ HSection.limits "SM520" = some (60, 10)
    ∧ HSection.limits "INVALID" = none := by
  refine ⟨?_, ?_, rfl, rfl, rfl, rfl, rfl⟩
  · intro s g wl fl hlim
    unfold HSection.check_width_thickness_ratios
    rw [hlim]
    rfl
  · intro s g hlim
    unfold HSection.check_width_thickness_ratios
    rw [hlim]

/-- C5, witness: the amended claim instantiated at `hs400` with grade
SN400 and at grade INVALID. -/
theorem c5_witness :
    (HSection.limits "SN400" = some (72, 12)
      ∧ hs400.check_width_thickness_ratios "SN400" =
        Except.ok ⟨⟨pyRound2 ((hs400.h - 2 * hs400.t_f) / hs400.t_w), 72,
              if (hs400.h - 2 * hs400.t_f) / hs400.t_w ≤ 72 then "OK" else "NG"⟩,
             ⟨pyRound2 ((hs400.b / 2) / hs400.t_f), 12,
              if (hs400.b / 2) / hs400.t_f ≤ 12 then "OK" else "NG"⟩⟩)
    ∧ (HSection.limits "INVALID" = none
      ∧ hs400.check_width_thickness_ratios "INVALID" =
          Except.error (.unsupportedGrade "INVALID")) :=
  ⟨⟨rfl, c5_theorem.1 hs400 "SN400" 72 12 rfl⟩,
   ⟨rfl, c5_theorem.2.1 hs400 "INVALID" rfl⟩⟩

/-- C6: for every lipped channel, the sum of the web, flange and lip
contributions equals the total moment of inertia — exactly, hence within
the claimed 0.01 tolerance — for both axes (the totals are defined as
these sums in the code). -/
theorem c6_theorem :
    ∀ s : LippedChannelSection,
      |s.moment_of_inertia_strong_web + s.moment_of_inertia_strong_flange +
        s.moment_of_inertia_strong_lip - s.moment_of_inertia_strong| ≤ 0.01
      ∧ |s.moment_of_inertia_weak_web + s.moment_of_inertia_weak_flange +
          s.moment_of_inertia_weak_lip - s.moment_of_inertia_weak| ≤ 0.01 := by
  intro s
  constructor
  · simp [LippedChannelSection.moment_of_inertia_strong]
    norm_num
  · simp [LippedChannelSection.moment_of_inertia_weak]
    norm_num

/-- C7: for every H-section, `centroid = (b/2, h/2)` exactly, and the
aggregated record's shear center coincides with the centroid exactly. -/
theorem c7_theorem :
    ∀ s : HSection,
      s.centroid = (s.b / 2, s.h / 2)
      ∧ (s.calculate_properties).shear_center_x = s.centroid.1
      ∧ (s.calculate_properties).shear_center_y = s.centroid.2 :=
  fun _ => ⟨rfl, rfl, rfl⟩

/-- C8: for `HSection(400, 200, 8, 13)`, `web_area = 2992`,
`flange_area = 5200`, `area = 8192`, and the strong-axis moment of inertia
strictly exceeds the weak-axis one. -/
theorem c8_theorem :
    hs400.web_area = 2992
    ∧ hs400.flange_area = 5200
    ∧ hs400.area = 8192
    ∧ hs400.moment_of_inertia_weak < hs400.moment_of_inertia_strong := by
  refine ⟨?_, ?_, ?_, ?_⟩
  · norm_num [HSection.web_area, hs400]
  · norm_num [HSection.flange_area, hs400]
  · norm_num [HSection.area, HSection.web_area, HSection.flange_area, hs400]
  · norm_num [HSection.moment_of_inertia_weak, HSection.moment_of_inertia_strong, hs400]

/-- C9: the returned `ratio` entries are the exact ratios rounded to two
decimals while each `status` is decided on the unrounded ratio (shown here
for grade SN400 over all H-sections), and `hs74` (`h=74.002, b=1, t_w=1,
t_f=1`) is a concrete section whose exact web ratio 72.002 exceeds the
limit 72 by less than 0.005, yet whose record shows `ratio = 72 = limit`
with `status = "NG"`. -/
theorem c9_theorem :
    (∀ s : HSection, s.check_width_thickness_ratios "SN400" =
      Except.ok ⟨⟨pyRound2 s.web_width_thickness_ratio, 72,
            if s.web_width_thickness_ratio ≤ 72 then "OK" else "NG"⟩,
           ⟨pyRound2 s.flange_width_thickness_ratio, 12,
            if s.flange_width_thickness_ratio ≤ 12 then "OK" else "NG"⟩⟩)
    ∧ hs74.web_width_thickness_ratio = 72.002
    ∧ 72 < hs74.web_width_thickness_ratio
    ∧ hs74.web_width_thickness_ratio - 72 < 0.005
    ∧ hs74.check_width_thickness_ratios "SN400" =
        Except.ok ⟨⟨72, 72, "NG"⟩, ⟨0.5, 12, "OK"⟩⟩ := by
  refine ⟨fun s => rfl, ?_, ?_, ?_, ?_⟩
  · norm_num [HSection.web_width_thickness_ratio, hs74]
  · norm_num [HSection.web_width_thickness_ratio, hs74]
  · norm_num [HSection.web_width_thickness_ratio, hs74]
  · norm_num [HSection.check_width_thickness_ratios, HSection.limits,
      HSection.web_width_thickness_ratio, HSection.flange_width_thickness_ratio,
      hs74, pyRound2, Int.fract, round_eq]

/-- C10: the validator treats Python booleans as numbers (`bool` is an
`int` subclass): `True` is stored as 1.0 for any field, while `False`
fails the positivity test with the `ValueError` (`outOfRange`), not the
`TypeError` (`invalidDimension`); shown at the descriptor itself (which
guards every dimension of both classes) and at one construction of each
class. -/
theorem c10_theorem :
    (∀ (name : String) (b : Bool),
      PositiveFloat.set name (.bool b) =
        if b then Except.ok 1 else Except.error (.outOfRange name))
    ∧ LippedChannelSection.make (.bool true) (.num 75) (.num 20)
        (.num 2.3) (.num 2.3) (.num 2.3) =
        Except.ok ⟨1, 75, 20, 2.3, 2.3, 2.3⟩
    ∧ HSection.make (.num 400) (.bool false) (.num 8) (.num 13) =
        Except.error (.outOfRange "フランジ幅") := by
  refine ⟨?_, ?_, ?_⟩
  · intro name b
    cases b <;> rfl
  · norm_num [LippedChannelSection.make, PositiveFloat.set, PyVal.isNumberInstance,
      PyVal.toRat]
    rfl
  · norm_num [HSection.make, PositiveFloat.set, PyVal.isNumberInstance, PyVal.toRat]
    rfl
